import Mathlib

/-!
# Verification of the congressional-trade uniqueness scorer

A shallow embedding, in Lean 4, of the pure core of the
`uniquetrades-congress` repository: the uniqueness scorer
(`src/scoring/uniqueness-scorer.ts`), its configuration and result types
(`src/scoring/types.ts`), the committee-sector taxonomy lookups
(`src/data/committee-sector-taxonomy.ts`, `src/data/sector-map.ts`), the
trading-pattern analyzer (`src/data/pattern-analyzer.ts`) and the amount
parsing / trader-history aggregation of the analysis service.

Conventions of the embedding:
* JS numbers are modelled as `ℚ`; `Math.round` is `jsRound` below.
* JS `null`/`undefined` string fields are `Option String`; JS truthiness of
  a string (`""` is falsy) is `strTruthy`.
* String case folding and substring search are modelled on the character
  lists of the ASCII data the repository handles.
* The scorer's parameter `sectorMap` is declared with the interface
  `CommitteeSectorMap` of `types.ts`, which exposes `getCommitteeSectors`,
  `getCommitteeIndustries` and `hasOverlap`; the scorer additionally calls
  `sectorMap.getStockSectors`, a method that interface does not declare and
  that the shipped implementation `CommitteeSectorMapImpl` does not define.
  The runtime object is therefore modelled with an *optional* extra method
  `getStockSectors`, and calling it when absent is the JS `TypeError`,
  modelled by `Except.error`.  Fallible computations return `Except String`.
-/

namespace CongressTrades

/- ============================================================
   JS string primitives used by the source
   ============================================================ -/

/-- ASCII lower-casing of one character (the effect of `toLowerCase` on the
repository's data). -/
def lowerChar (c : Char) : Char :=
  if 'A' ≤ c ∧ c ≤ 'Z' then Char.ofNat (c.toNat + 32) else c

/-- ASCII upper-casing of one character (the effect of `toUpperCase`). -/
def upperChar (c : Char) : Char :=
  if 'a' ≤ c ∧ c ≤ 'z' then Char.ofNat (c.toNat - 32) else c

/-- Embeds `s.toLowerCase()`. -/
def lowerStr (s : String) : String := ⟨s.data.map lowerChar⟩

/-- Embeds `s.toUpperCase()`. -/
def upperStr (s : String) : String := ⟨s.data.map upperChar⟩

/-- Embeds `n` is an initial segment of the second list. -/
def leadsWith : List Char → List Char → Bool
  | [], _ => true
  | _ :: _, [] => false
  | a :: as, b :: bs => a == b && leadsWith as bs

/-- The character list `n` occurs contiguously inside the first argument. -/
def containsChars (n : List Char) : List Char → Bool
  | [] => n.isEmpty
  | c :: t => leadsWith n (c :: t) || containsChars n t

/-- Embeds `h.includes(n)` on strings. -/
def containsSub (h n : String) : Bool := containsChars n.data h.data

/-- Embeds `s.trim()`: strip whitespace from both ends. -/
def trimChars (l : List Char) : List Char :=
  ((l.dropWhile Char.isWhitespace).reverse.dropWhile Char.isWhitespace).reverse

/-- String version of `trimChars`. -/
def trimStr (s : String) : String := ⟨trimChars s.data⟩

/-- JS truthiness of an optional string: `null`/`undefined` and `""` are falsy. -/
def strTruthy : Option String → Bool
  | none => false
  | some s => !(s == "")

/-- Embeds `x || null` on an optional string. -/
def jsOrNull (o : Option String) : Option String :=
  if strTruthy o then o else none

/-- Template-literal rendering of an optional string: JS prints `undefined`
for a missing field inside a template literal. -/
def jsTemplate (o : Option String) : String := o.getD "undefined"

/-- Accumulator for `digitRuns`. -/
def digitRunsAux : List Char → List Char → List (List Char)
  | [], cur => if cur.isEmpty then [] else [cur.reverse]
  | c :: rest, cur =>
    if c.isDigit then digitRunsAux rest (c :: cur)
    else if cur.isEmpty then digitRunsAux rest []
    else cur.reverse :: digitRunsAux rest []

/-- All maximal runs of decimal digits, in order: `cleaned.match(/(\d+)/g)`. -/
def digitRuns (l : List Char) : List (List Char) := digitRunsAux l []

/-- Embeds `parseInt(run, 10)` on a run of decimal digits. -/
def parseIntNat (l : List Char) : ℕ :=
  l.foldl (fun a c => 10 * a + (c.toNat - 48)) 0

/-- Embeds `amount.replace(/[$,]/g, "")`. -/
def stripDollarComma (s : String) : List Char :=
  s.data.filter (fun c => !(c == '$' || c == ','))

/-- Embeds `Math.round`: round half toward positive infinity. -/
def jsRound (x : ℚ) : ℤ := ⌊x + 1/2⌋

/- ============================================================
   Data model (src/scoring/types.ts, src/types/index.ts)
   ============================================================ -/

/-- A parsed amount range `{low, high}`. -/
structure AmountRange where
  low : ℚ
  high : ℚ
deriving Repr, DecidableEq

/-- Embeds `TradeInput` of `src/scoring/types.ts`. -/
structure TradeInput where
  symbol : Option String
  assetDescription : Option String
  assetType : Option String
  type : Option String
  amount : Option AmountRange
  transactionDate : Option String
  owner : Option String
deriving Repr, DecidableEq

/-- Chamber of congress. -/
inductive Chamber
  | senate
  | house
deriving Repr, DecidableEq

/-- The string a chamber renders as in a template literal. -/
def chamberStr : Chamber → String
  | .senate => "senate"
  | .house => "house"

/-- Embeds `TraderInput` of `src/scoring/types.ts`. -/
structure TraderInput where
  id : String
  firstName : String
  lastName : String
  chamber : Chamber
  committees : List String
  party : Option String
deriving Repr, DecidableEq

/-- Embeds `TraderHistory` of `src/scoring/types.ts`. -/
structure TraderHistory where
  visibleTrades : List TradeInput
  averageTradeSize : Option ℚ
  totalTradeCount : ℕ
deriving Repr, DecidableEq

/-- Embeds `MarketData` of `src/scoring/types.ts`. -/
structure MarketData where
  marketCap : Option ℚ
  sector : Option String
  industry : Option String
  averageVolume : Option ℚ
deriving Repr, DecidableEq

/-- Embeds `CongressionalTradingPattern` of `src/scoring/types.ts`. -/
structure CongressionalTradingPattern where
  symbol : String
  totalTrades : ℕ
  uniqueTraders : ℕ
  recentTrades : ℕ
deriving Repr, DecidableEq

/-- The runtime sector-map object.  The declared interface
(`src/scoring/types.ts` lines 70-77) has exactly the first three methods;
`getStockSectors` is an extra method some map objects may carry but the
shipped `CommitteeSectorMapImpl` does not, hence `Option`. -/
structure CommitteeSectorMap where
  getCommitteeSectors : String → List String
  getCommitteeIndustries : String → List String
  hasOverlap : String → Option String → Option String → Bool
  getStockSectors : Option (String → String → List String)

/-- Market-cap bucket thresholds of `ScoringConfig`. -/
structure MarketCapThresholds where
  micro : ℚ
  small : ℚ
  mid : ℚ
deriving Repr, DecidableEq

/-- Conviction multiplier thresholds of `ScoringConfig`. -/
structure ConvictionThresholds where
  high : ℚ
  veryHigh : ℚ
deriving Repr, DecidableEq

/-- Rarity trade-count thresholds of `ScoringConfig`. -/
structure RarityThresholds where
  unique : ℚ
  rare : ℚ
  uncommon : ℚ
deriving Repr, DecidableEq

/-- The six factor weights of `ScoringConfig`. -/
structure FactorWeights where
  marketCap : ℚ
  conviction : ℚ
  rarity : ℚ
  committeeRelevance : ℚ
  derivative : ℚ
  ownership : ℚ
deriving Repr, DecidableEq

/-- Embeds `ScoringConfig` of `src/scoring/types.ts`. -/
structure ScoringConfig where
  marketCap : MarketCapThresholds
  conviction : ConvictionThresholds
  rarity : RarityThresholds
  weights : FactorWeights
deriving Repr, DecidableEq

/-- Embeds `DEFAULT_SCORING_CONFIG` of `src/scoring/types.ts` lines 200-223. -/
def DEFAULT_SCORING_CONFIG : ScoringConfig :=
  { marketCap := { micro := 300000000, small := 2000000000, mid := 10000000000 }
    conviction := { high := 2, veryHigh := 5 }
    rarity := { unique := 1, rare := 3, uncommon := 10 }
    weights := { marketCap := 0.20, conviction := 0.25, rarity := 0.25,
                 committeeRelevance := 0.15, derivative := 0.10, ownership := 0.05 } }

/-- Embeds `FactorScores` of `src/scoring/types.ts`. -/
structure FactorScores where
  marketCapScore : ℚ
  convictionScore : ℚ
  rarityScore : ℚ
  committeeRelevanceScore : ℚ
  derivativeScore : ℚ
  ownershipScore : ℚ
deriving Repr, DecidableEq

/-- Market-cap entry of `ScoreExplanation`. -/
structure MarketCapExplanation where
  value : ℚ
  category : String
deriving Repr, DecidableEq

/-- Conviction entry of `ScoreExplanation`. -/
structure ConvictionExplanation where
  tradeSize : ℚ
  averageSize : ℚ
  multiplier : ℚ
deriving Repr, DecidableEq

/-- Rarity entry of `ScoreExplanation`. -/
structure RarityExplanation where
  totalCongressTrades : ℕ
  uniqueTraders : ℕ
  category : String
deriving Repr, DecidableEq

/-- Committee-relevance entry of `ScoreExplanation`, with the fields the
scorer file actually constructs. -/
structure CommitteeRelevanceExplanation where
  traderCommittees : List String
  stockSectors : List String
  overlappingSectors : List String
deriving Repr, DecidableEq

/-- Derivative entry of `ScoreExplanation`. -/
structure DerivativeExplanation where
  assetType : String
  isDerivative : Bool
deriving Repr, DecidableEq

/-- Ownership entry of `ScoreExplanation`. -/
structure OwnershipExplanation where
  owner : String
  isIndirect : Bool
deriving Repr, DecidableEq

/-- Embeds `ScoreExplanation` of `src/scoring/types.ts`: one optional entry per factor. -/
structure ScoreExplanation where
  marketCap : Option MarketCapExplanation
  conviction : Option ConvictionExplanation
  rarity : Option RarityExplanation
  committeeRelevance : Option CommitteeRelevanceExplanation
  derivative : Option DerivativeExplanation
  ownership : Option OwnershipExplanation
deriving Repr, DecidableEq

/-- The six convenience flags of `UniquenessResult`. -/
structure UniquenessFlags where
  isSmallCap : Bool
  isHighConviction : Bool
  isRareStock : Bool
  hasCommitteeRelevance : Bool
  isDerivative : Bool
  isIndirectOwnership : Bool
deriving Repr, DecidableEq

/-- Embeds `UniquenessResult` of `src/scoring/types.ts`. -/
structure UniquenessResult where
  overallScore : ℤ
  factors : FactorScores
  explanation : ScoreExplanation
  flags : UniquenessFlags
deriving Repr, DecidableEq

/- ============================================================
   Individual factor scorers (src/scoring/uniqueness-scorer.ts)
   ============================================================ -/

/-- Embeds `scoreMarketCap`, lines 97-116.  The guard `!marketData?.marketCap`
is JS falsiness: absent data, absent cap, or a cap of exactly `0`. -/
def scoreMarketCap (marketData : Option MarketData) (config : ScoringConfig) : ℚ :=
  match marketData with
  | none => 0
  | some md =>
    match md.marketCap with
    | none => 0
    | some cap =>
      if cap = 0 then 0
      else if cap < config.marketCap.micro then 100
      else if cap < config.marketCap.small then 75
      else if cap < config.marketCap.mid then 25
      else 0

/-- Embeds `scoreConviction`, lines 121-145.  The guard `!traderHistory.averageTradeSize`
is falsy also for an average of exactly `0`. -/
def scoreConviction (trade : TradeInput) (traderHistory : TraderHistory)
    (config : ScoringConfig) : ℚ :=
  match trade.amount, traderHistory.averageTradeSize with
  | some amt, some avg =>
    if avg = 0 then 0
    else
      let tradeSize := (amt.low + amt.high) / 2
      let multiplier := tradeSize / avg
      if config.conviction.veryHigh ≤ multiplier then 100
      else if config.conviction.high ≤ multiplier then 75
      else if (3/2 : ℚ) ≤ multiplier then 50
      else if 1 ≤ multiplier then 25
      else 0
  | _, _ => 0

/-- Embeds `scoreRarity`, lines 150-181. -/
def scoreRarity (pattern : Option CongressionalTradingPattern)
    (config : ScoringConfig) : ℚ :=
  match pattern with
  | none => 50
  | some p =>
    let tradeScore : ℚ :=
      if (p.totalTrades : ℚ) ≤ config.rarity.unique then 100
      else if (p.totalTrades : ℚ) ≤ config.rarity.rare then 75
      else if (p.totalTrades : ℚ) ≤ config.rarity.uncommon then 50
      else 0
    let traderBonus : ℚ :=
      if p.uniqueTraders = 1 then 25
      else if p.uniqueTraders ≤ 3 then 10
      else 0
    min 100 (tradeScore + traderBonus)

/-- Embeds `scoreCommitteeRelevance`, lines 186-221.  After the falsiness guard the
scorer calls `sectorMap.getStockSectors`, which the declared interface does
not have; on a map without it the call is a `TypeError`. -/
def scoreCommitteeRelevanceSrc (trade : TradeInput) (trader : TraderInput)
    (sectorMap : Option CommitteeSectorMap) : Except String ℚ :=
  match sectorMap with
  | none => Except.ok 0
  | some m =>
    if strTruthy trade.symbol = false ∨ trader.committees = [] then Except.ok 0
    else
      match m.getStockSectors with
      | none => Except.error "TypeError: sectorMap.getStockSectors is not a function"
      | some gss =>
        let stockSectors := gss (trade.symbol.getD "") (trade.assetDescription.getD "")
        if stockSectors = [] then Except.ok 0
        else
          let traderSectors :=
            trader.committees.foldl (fun acc c => acc ++ m.getCommitteeSectors c) []
          let overlapping := stockSectors.filter (fun s => traderSectors.contains s)
          if overlapping.length = 0 then Except.ok 0
          else if 2 ≤ overlapping.length then Except.ok 100
          else Except.ok 75

/-- Embeds `scoreDerivative`, lines 226-247. -/
def scoreDerivative (trade : TradeInput) : ℚ :=
  match trade.assetType with
  | none => 0
  | some a =>
    if a = "" then 0
    else
      let assetT := lowerStr a
      if containsSub assetT "option" || containsSub assetT "warrant" ||
          containsSub assetT "right" then 100
      else if containsSub assetT "future" || containsSub assetT "derivative" then 75
      else 0

/-- Embeds `scoreOwnership`, lines 252-268.  The source tests `"spouse"` first, then
`"child"`/`"dependent"`, then `"joint"`. -/
def scoreOwnership (trade : TradeInput) : ℚ :=
  match trade.owner with
  | none => 0
  | some o =>
    if o = "" then 0
    else
      let owner := lowerStr o
      if containsSub owner "spouse" then 75
      else if containsSub owner "child" || containsSub owner "dependent" then 100
      else if containsSub owner "joint" then 25
      else 0

/-- Embeds `calculateOverallScore`, lines 75-88: `Math.round` of the weighted sum. -/
def calculateOverallScore (factors : FactorScores) (config : ScoringConfig) : ℤ :=
  jsRound
    (factors.marketCapScore * config.weights.marketCap +
     factors.convictionScore * config.weights.conviction +
     factors.rarityScore * config.weights.rarity +
     factors.committeeRelevanceScore * config.weights.committeeRelevance +
     factors.derivativeScore * config.weights.derivative +
     factors.ownershipScore * config.weights.ownership)

/-- Embeds `buildExplanation`, lines 274-375. -/
def buildExplanationSrc (trade : TradeInput) (trader : TraderInput)
    (traderHistory : TraderHistory) (marketData : Option MarketData)
    (tradingPattern : Option CongressionalTradingPattern)
    (sectorMap : Option CommitteeSectorMap) (config : ScoringConfig) :
    Except String ScoreExplanation := do
  let mcExp : Option MarketCapExplanation :=
    match marketData with
    | some md =>
      match md.marketCap with
      | some cap =>
        if cap = 0 then none
        else
          some { value := cap
                 category :=
                   if cap < config.marketCap.micro then "micro"
                   else if cap < config.marketCap.small then "small"
                   else if cap < config.marketCap.mid then "mid"
                   else "large" }
      | none => none
    | none => none
  let convExp : Option ConvictionExplanation :=
    match trade.amount, traderHistory.averageTradeSize with
    | some amt, some avg =>
      if avg = 0 then none
      else
        some { tradeSize := (amt.low + amt.high) / 2
               averageSize := avg
               multiplier := ((amt.low + amt.high) / 2) / avg }
    | _, _ => none
  let rarityExp : Option RarityExplanation :=
    match tradingPattern with
    | some p =>
      some { totalCongressTrades := p.totalTrades
             uniqueTraders := p.uniqueTraders
             category :=
               if (p.totalTrades : ℚ) ≤ config.rarity.unique then "unique"
               else if (p.totalTrades : ℚ) ≤ config.rarity.rare then "rare"
               else if (p.totalTrades : ℚ) ≤ config.rarity.uncommon then "uncommon"
               else "common" }
    | none => none
  let crExp ←
    (match sectorMap with
     | some m =>
       if strTruthy trade.symbol = false ∨ trader.committees = [] then Except.ok none
       else
         match m.getStockSectors with
         | none => Except.error "TypeError: sectorMap.getStockSectors is not a function"
         | some gss =>
           let stockSectors := gss (trade.symbol.getD "") (trade.assetDescription.getD "")
           let traderSectors :=
             trader.committees.foldl (fun acc c => acc ++ m.getCommitteeSectors c) []
           let overlapping := stockSectors.filter (fun s => traderSectors.contains s)
           Except.ok (if 0 < overlapping.length then
               some { traderCommittees := trader.committees
                      stockSectors := stockSectors
                      overlappingSectors := overlapping }
             else none)
     | none => Except.ok none :
       Except String (Option CommitteeRelevanceExplanation))
  let derivExp : Option DerivativeExplanation :=
    match trade.assetType with
    | some a =>
      if a = "" then none
      else
        some { assetType := a
               isDerivative := containsSub (lowerStr a) "option" ||
                 containsSub (lowerStr a) "warrant" }
    | none => none
  let ownExp : Option OwnershipExplanation :=
    match trade.owner with
    | some o =>
      if o = "" then none
      else
        some { owner := o
               isIndirect := !(lowerStr o == "self") && !(containsSub (lowerStr o) "self") }
    | none => none
  Except.ok
    { marketCap := mcExp, conviction := convExp, rarity := rarityExp,
      committeeRelevance := crExp, derivative := derivExp, ownership := ownExp }

/-- Embeds `scoreTrade`, lines 25-70: factor scores, explanation, flags, overall. -/
def scoreTradeSrc (trade : TradeInput) (trader : TraderInput)
    (traderHistory : TraderHistory) (marketData : Option MarketData)
    (tradingPattern : Option CongressionalTradingPattern)
    (sectorMap : Option CommitteeSectorMap)
    (config : ScoringConfig) : Except String UniquenessResult := do
  let crel ← scoreCommitteeRelevanceSrc trade trader sectorMap
  let factors : FactorScores :=
    { marketCapScore := scoreMarketCap marketData config
      convictionScore := scoreConviction trade traderHistory config
      rarityScore := scoreRarity tradingPattern config
      committeeRelevanceScore := crel
      derivativeScore := scoreDerivative trade
      ownershipScore := scoreOwnership trade }
  let explanation ←
    buildExplanationSrc trade trader traderHistory marketData tradingPattern sectorMap config
  let flags : UniquenessFlags :=
    { isSmallCap := decide (50 ≤ factors.marketCapScore)
      isHighConviction := decide (50 ≤ factors.convictionScore)
      isRareStock := decide (50 ≤ factors.rarityScore)
      hasCommitteeRelevance := decide (50 ≤ factors.committeeRelevanceScore)
      isDerivative := decide (50 ≤ factors.derivativeScore)
      isIndirectOwnership := decide (50 ≤ factors.ownershipScore) }
  Except.ok
    { overallScore := calculateOverallScore factors config
      factors := factors
      explanation := explanation
      flags := flags }

/- ============================================================
   Committee-sector taxonomy (src/data/committee-sector-taxonomy.ts)
   ============================================================ -/

/-- Embeds `CommitteeSectorTaxonomy` entry: one committee's jurisdiction. -/
structure CommitteeSectorTaxonomy where
  committeeId : String
  committeeName : String
  sectors : List String
  industries : List String
deriving Repr, DecidableEq

/-- Embeds `committeeMap.get(id)` over the static table (the table has one entry per
committee id, so first match is the map entry). -/
def committeeMapGet (table : List CommitteeSectorTaxonomy) (id : String) :
    Option CommitteeSectorTaxonomy :=
  table.find? (fun c => c.committeeId == id)

/-- Embeds `getCommitteeSectors`, taxonomy lines 423-425: unknown id yields `[]`. -/
def getCommitteeSectors (table : List CommitteeSectorTaxonomy) (id : String) :
    List String :=
  ((committeeMapGet table id).map (fun c => c.sectors)).getD []

/-- Embeds `getCommitteeIndustries`, taxonomy lines 430-432. -/
def getCommitteeIndustries (table : List CommitteeSectorTaxonomy) (id : String) :
    List String :=
  ((committeeMapGet table id).map (fun c => c.industries)).getD []

/-- Embeds `hasCommitteeOverlap`, taxonomy lines 437-456: sector match OR industry
match, each guarded by JS truthiness of the tag. -/
def hasCommitteeOverlap (table : List CommitteeSectorTaxonomy) (committeeId : String)
    (stockSector stockIndustry : Option String) : Bool :=
  match committeeMapGet table committeeId with
  | none => false
  | some taxonomy =>
    (match stockSector with
     | some s => !(s == "") && taxonomy.sectors.contains s
     | none => false) ||
    (match stockIndustry with
     | some i => !(i == "") && taxonomy.industries.contains i
     | none => false)

/-- Embeds `CommitteeSectorMapImpl` of `src/data/sector-map.ts`: the capability object
delegating to the taxonomy lookups.  It defines exactly the three interface
methods, so `getStockSectors := none`. -/
def sectorMapImpl (table : List CommitteeSectorTaxonomy) : CommitteeSectorMap :=
  { getCommitteeSectors := getCommitteeSectors table
    getCommitteeIndustries := getCommitteeIndustries table
    hasOverlap := hasCommitteeOverlap table
    getStockSectors := none }

/- ============================================================
   FMP trades and generic grouping
   ============================================================ -/

/-- Embeds `FMPTrade` of `src/types/index.ts` lines 156-172: all fields optional strings. -/
structure FMPTrade where
  firstName : Option String
  lastName : Option String
  office : Option String
  link : Option String
  dateRecieved : Option String
  transactionDate : Option String
  owner : Option String
  assetDescription : Option String
  assetType : Option String
  type : Option String
  amount : Option String
  comment : Option String
  symbol : Option String
deriving Repr, DecidableEq

/-- An `FMPTrade` with every field absent, for building concrete examples. -/
def blankFMPTrade : FMPTrade :=
  ⟨none, none, none, none, none, none, none, none, none, none, none, none, none⟩

/-- First-match association lookup, the behaviour of `Map.get` on a map whose
keys are unique. -/
def alookup {α : Type} (k : String) : List (String × α) → Option α
  | [] => none
  | (k0, v) :: rest => if k0 = k then some v else alookup k rest

/-- One step of JS `Map` grouping: create the key's entry if missing, then
push the element at the end of the key's list. -/
def upsert {α : Type} (m : List (String × List α)) (k : String) (a : α) :
    List (String × List α) :=
  match m with
  | [] => [(k, [a])]
  | (k0, l) :: rest =>
    if k0 = k then (k0, l ++ [a]) :: rest else (k0, l) :: upsert rest k a

/-- Group a list by an optional key, skipping elements without a key — the
`for`-loop-plus-`Map` idiom both aggregation passes of the source use. -/
def groupFold {α : Type} (key : α → Option String) (xs : List α) :
    List (String × List α) :=
  xs.foldl (fun m a => match key a with | none => m | some k => upsert m k a) []

/- ============================================================
   Pattern analyzer (src/data/pattern-analyzer.ts)
   ============================================================ -/

/-- Grouping key of `buildPatterns`: `if (!trade.symbol) continue` then
`trade.symbol.toUpperCase()`. -/
def patternKey (t : FMPTrade) : Option String :=
  match t.symbol with
  | none => none
  | some s => if s = "" then none else some (upperStr s)

/-- Per-trade trader id of the pattern analyzer, line 46:
`` `${trade.firstName}-${trade.lastName}`.toLowerCase() `` — a joined string,
with `undefined` rendered for missing names. -/
def patternTraderId (t : FMPTrade) : String :=
  lowerStr (jsTemplate t.firstName ++ "-" ++ jsTemplate t.lastName)

/-- Embeds `Set.add`: append only if not yet present. -/
def addDistinct (acc : List String) (x : String) : List String :=
  if x ∈ acc then acc else acc ++ [x]

/-- Embeds `Set.size` after adding every element of the list. -/
def distinctCount (l : List String) : ℕ :=
  (l.foldl addDistinct []).length

/-- Count of trades whose transaction date satisfies the 90-day recency test.
The date comparison against "now" is supplied as the predicate `isRecent`. -/
def countRecent (isRecent : String → Bool) (l : List FMPTrade) : ℕ :=
  (l.filter (fun t =>
    match t.transactionDate with
    | some d => isRecent d
    | none => false)).length

/-- The pattern computed for one symbol group, lines 40-64. -/
def mkPattern (isRecent : String → Bool) (sym : String)
    (l : List FMPTrade) : CongressionalTradingPattern :=
  { symbol := sym
    totalTrades := l.length
    uniqueTraders := distinctCount (l.map patternTraderId)
    recentTrades := countRecent isRecent l }

/-- Embeds `buildPatterns`, lines 22-65: group by uppercased symbol, then aggregate. -/
def buildPatterns (isRecent : String → Bool) (trades : List FMPTrade) :
    List (String × CongressionalTradingPattern) :=
  (groupFold patternKey trades).map (fun p => (p.1, mkPattern isRecent p.1 p.2))

/-- Embeds `getPattern`, lines 70-80: the stored pattern, or the zero-valued pattern
for a symbol with no entry. -/
def getPattern (patterns : List (String × CongressionalTradingPattern))
    (symbol : String) : CongressionalTradingPattern :=
  (alookup (upperStr symbol) patterns).getD
    { symbol := upperStr symbol, totalTrades := 0, uniqueTraders := 0, recentTrades := 0 }

/- ============================================================
   Analysis service (analysis-service.ts)
   ============================================================ -/

/-- Embeds `parseAmountRange`, lines 64-83 of the analysis service: strip `$` and `,`,
extract all digit runs; none → null, one → `{n, n}`, two or more →
`{first, second}`. -/
def parseAmountRange (amount : Option String) : Option AmountRange :=
  match amount with
  | none => none
  | some a =>
    if a = "" then none
    else
      let numbers := digitRuns (stripDollarComma a)
      match numbers with
      | [] => none
      | [n] => some { low := (parseIntNat n : ℚ), high := (parseIntNat n : ℚ) }
      | n1 :: n2 :: _ => some { low := (parseIntNat n1 : ℚ), high := (parseIntNat n2 : ℚ) }

/-- Embeds `toTradeInput`, lines 88-98: `x || null` on each string field, parsed amount. -/
def toTradeInput (t : FMPTrade) : TradeInput :=
  { symbol := jsOrNull t.symbol
    assetDescription := jsOrNull t.assetDescription
    assetType := jsOrNull t.assetType
    type := jsOrNull t.type
    amount := parseAmountRange t.amount
    transactionDate := jsOrNull t.transactionDate
    owner := jsOrNull t.owner }

/-- Embeds `getTraderId`, lines 103-107:
`` `${chamber}-${first}-${last}` `` with names lower-cased and trimmed. -/
def getTraderId (t : FMPTrade) (chamber : Chamber) : String :=
  chamberStr chamber ++ "-" ++ trimStr (lowerStr (t.firstName.getD "")) ++ "-" ++
    trimStr (lowerStr (t.lastName.getD ""))

/-- The history computed for one trader's group of trades, lines 275-290. -/
def mkHistory (l : List (FMPTrade × Chamber)) : TraderHistory :=
  let tradeInputs := l.map (fun p => toTradeInput p.1)
  let amounts :=
    (tradeInputs.map (fun t => t.amount.map (fun a => (a.low + a.high) / 2))).reduceOption
  { visibleTrades := tradeInputs
    averageTradeSize :=
      if amounts.isEmpty then none else some (amounts.sum / (amounts.length : ℚ))
    totalTradeCount := tradeInputs.length }

/-- Embeds `buildTraderHistories`, lines 257-293: group all trades by trader id,
then aggregate each group. -/
def buildTraderHistories (trades : List (FMPTrade × Chamber)) :
    List (String × TraderHistory) :=
  (groupFold (fun p => some (getTraderId p.1 p.2)) trades).map
    (fun p => (p.1, mkHistory p.2))

/- ============================================================
   Definitions taken from the spec's words
   ============================================================ -/

/-- Modelled from the spec: the industry-aware `scoreCommitteeRelevance`.
The repository ships only the sector-only revision of the scorer under
`src/scoring/`; the industry-aware revision — the one the interface
`CommitteeSectorMap`, the taxonomy's `hasCommitteeOverlap`, and the
report formatter's `stockSector`/`stockIndustry`/`overlappingCommittees`
fields belong to — is missing from the sources.  Per spec §4.4: requires a
truthy symbol, ≥1 committee and ≥1 resolved tag, else 0; union the
sector/industry sets of all the trader's committees; intersect with the
stock's own tags; 0 overlaps → 0, one → 75, two or more → 100. -/
def scoreCommitteeRelevanceSI (symbol : Option String) (committees : List String)
    (stockSector stockIndustry : Option String) (m : CommitteeSectorMap) : ℚ :=
  if strTruthy symbol = false ∨ committees = [] then 0
  else
    let stockTags := (stockSector.toList ++ stockIndustry.toList).dedup
    if stockTags = [] then 0
    else
      let traderTags := committees.foldl
        (fun acc c => acc ++ m.getCommitteeSectors c ++ m.getCommitteeIndustries c) []
      let overlapping := stockTags.filter (fun s => traderTags.contains s)
      if overlapping.length = 0 then 0
      else if 2 ≤ overlapping.length then 100
      else 75

/-- The ownership classifier exactly as the claim orders the checks
("child"/"dependent" first, then "spouse", then "joint"), written from the
spec's words for comparison against the source's `scoreOwnership`. -/
def claimOrderOwnership (trade : TradeInput) : ℚ :=
  match trade.owner with
  | none => 0
  | some o =>
    if o = "" then 0
    else
      let owner := lowerStr o
      if containsSub owner "child" || containsSub owner "dependent" then 100
      else if containsSub owner "spouse" then 75
      else if containsSub owner "joint" then 25
      else 0

/-- The case-insensitively normalized `(firstName, lastName)` pair of a trade,
the identity the claim about unique-trader counting uses. -/
def pairKey (t : FMPTrade) : String × String :=
  (lowerStr (jsTemplate t.firstName), lowerStr (jsTemplate t.lastName))

/- ============================================================
   Helper lemmas about grouping
   ============================================================ -/

lemma alookup_upsert {α : Type} (m : List (String × List α)) (k k' : String) (a : α) :
    alookup k' (upsert m k a) =
      if k' = k then some ((alookup k' m).getD [] ++ [a]) else alookup k' m := by
  induction m with
  | nil =>
    by_cases h : k' = k
    · subst h; simp [upsert, alookup]
    · have h' : ¬ k = k' := fun hh => h hh.symm
      simp [upsert, alookup, h, h']
  | cons p rest ih =>
    obtain ⟨k0, l⟩ := p
    by_cases h0 : k0 = k
    · subst h0
      by_cases h1 : k' = k0
      · subst h1; simp [upsert, alookup]
      · have h1' : ¬ k0 = k' := fun hh => h1 hh.symm
        simp [upsert, alookup, h1, h1']
    · by_cases h1 : k0 = k'
      · subst h1
        have h2 : ¬ k0 = k := h0
        simp [upsert, alookup, h2]
      · simp [upsert, alookup, h0, h1, ih]

lemma alookup_foldl_upsert {α : Type} (key : α → Option String) (k : String)
    (xs : List α) :
    ∀ m : List (String × List α),
      alookup k (xs.foldl
          (fun m a => match key a with | none => m | some k0 => upsert m k0 a) m) =
        (match alookup k m with
         | none =>
           if (xs.filter (fun a => decide (key a = some k))).isEmpty then none
           else some (xs.filter (fun a => decide (key a = some k)))
         | some l => some (l ++ xs.filter (fun a => decide (key a = some k)))) := by
  induction xs with
  | nil =>
    intro m
    cases h : alookup k m <;> simp [h]
  | cons x xs ih =>
    intro m
    cases hx : key x with
    | none =>
      have hfx : (decide (key x = some k)) = false := by simp [hx]
      rw [List.foldl_cons]
      simp only [hx, List.filter_cons, hfx, Bool.false_eq_true, if_false]
      exact ih m
    | some k0 =>
      rw [List.foldl_cons]
      simp only [hx]
      rw [ih (upsert m k0 x), alookup_upsert m k0 k x]
      by_cases hk : k = k0
      · subst hk
        have hfx : (decide (key x = some k)) = true := by simp [hx]
        simp only [if_pos rfl, List.filter_cons, hfx, if_true]
        cases h : alookup k m <;> simp [h]
      · have hfx : (decide (key x = some k)) = false := by
          simp [hx]
          exact fun hh => hk hh.symm
        simp only [if_neg hk, List.filter_cons, hfx, Bool.false_eq_true, if_false]

lemma alookup_groupFold {α : Type} (key : α → Option String) (xs : List α) (k : String) :
    alookup k (groupFold key xs) =
      (if (xs.filter (fun a => decide (key a = some k))).isEmpty then none
       else some (xs.filter (fun a => decide (key a = some k)))) := by
  have h := alookup_foldl_upsert key k xs []
  simpa [groupFold, alookup] using h

lemma alookup_mapVal {α β : Type} (f : String → α → β) (m : List (String × α))
    (k : String) :
    alookup k (m.map (fun p => (p.1, f p.1 p.2))) = (alookup k m).map (f k) := by
  induction m with
  | nil => simp [alookup]
  | cons p rest ih =>
    obtain ⟨k0, v⟩ := p
    by_cases h : k0 = k
    · subst h; simp [alookup]
    · simp [alookup, h, ih]

lemma foldl_addDistinct_length (l : List String) :
    ∀ acc : List String, acc.Nodup →
      (l.foldl addDistinct acc).length = (acc.toFinset ∪ l.toFinset).card := by
  induction l with
  | nil =>
    intro acc hacc
    simp [List.toFinset_card_of_nodup hacc]
  | cons x l ih =>
    intro acc hacc
    rw [List.foldl_cons]
    by_cases hx : x ∈ acc
    · rw [addDistinct, if_pos hx, ih acc hacc]
      congr 1
      ext y
      by_cases hy : y = x <;>
        simp [hy, List.mem_toFinset, hx]
    · rw [addDistinct, if_neg hx]
      have hnodup : (acc ++ [x]).Nodup := by
        simp [List.nodup_append, hacc, hx]
      rw [ih (acc ++ [x]) hnodup]
      congr 1
      ext y
      by_cases hy : y = x <;> simp [hy, List.mem_toFinset]

lemma distinctCount_eq_card (l : List String) :
    distinctCount l = l.toFinset.card := by
  rw [distinctCount, foldl_addDistinct_length l [] List.nodup_nil]
  simp

/- ============================================================
   Concrete values used by witnesses and counterexamples
   ============================================================ -/

/-- A `TradeInput` with every field absent. -/
def blankTradeInput : TradeInput := ⟨none, none, none, none, none, none, none⟩

/-- A `TradeInput` whose only present field is the owner text. -/
def mkOwnerTrade (o : Option String) : TradeInput := ⟨none, none, none, none, none, none, o⟩

/-- Market data carrying only a market cap. -/
def mdWithCap (c : ℚ) : MarketData := ⟨some c, none, none, none⟩

/- ============================================================
   The claims
   ============================================================ -/

/-- C4: rarity scoring.  A null pattern scores the neutral 50; otherwise the
score is `min 100 (base + bonus)` with the base from the total-trade-count
bands (≤unique → 100, ≤rare → 75, ≤uncommon → 50, else 0) and the mutually
exclusive concentration bonus (+25 for exactly one unique trader, else +10
for at most three); with the default config a pattern with 2 total trades
and 1 unique trader scores 75 + 25 = 100; and the result always lies in
[0, 100]. -/
theorem c4_rarity_bands_bonus_clamp :
    (∀ config : ScoringConfig, scoreRarity none config = 50) ∧
    (∀ (p : CongressionalTradingPattern) (config : ScoringConfig),
      scoreRarity (some p) config =
        min 100
          ((if (p.totalTrades : ℚ) ≤ config.rarity.unique then (100 : ℚ)
            else if (p.totalTrades : ℚ) ≤ config.rarity.rare then 75
            else if (p.totalTrades : ℚ) ≤ config.rarity.uncommon then 50
            else 0) +
           (if p.uniqueTraders = 1 then (25 : ℚ)
            else if p.uniqueTraders ≤ 3 then 10
            else 0))) ∧
    scoreRarity (some ⟨"X", 2, 1, 0⟩) DEFAULT_SCORING_CONFIG = 100 ∧
    (∀ (pat : Option CongressionalTradingPattern) (config : ScoringConfig),
      0 ≤ scoreRarity pat config ∧ scoreRarity pat config ≤ 100) := by
  refine ⟨fun _ => rfl, fun p config => rfl, ?_, ?_⟩
  · show scoreRarity (some ⟨"X", 2, 1, 0⟩) DEFAULT_SCORING_CONFIG = 100
    rw [scoreRarity]
    norm_num [DEFAULT_SCORING_CONFIG]
  · intro pat config
    cases pat with
    | none => constructor <;> norm_num [scoreRarity]
    | some p =>
      rw [scoreRarity]
      constructor
      · refine le_min (by norm_num) ?_
        split_ifs <;> norm_num
      · exact min_le_left _ _

/-- C10: `getPattern` returns the zero-valued pattern for any symbol absent
from the batch, and `scoreRarity` on that zero pattern under the default
config is 100 (base 100 since 0 ≤ unique, plus the ≤3-traders bonus of 10,
clamped), not the neutral 50, which arises only from a null pattern. -/
theorem c10_zero_pattern_scores_100 (trades : List FMPTrade)
    (isRecent : String → Bool) (s : String)
    (habsent : trades.filter (fun t => decide (patternKey t = some (upperStr s))) = []) :
    getPattern (buildPatterns isRecent trades) s = ⟨upperStr s, 0, 0, 0⟩ ∧
    scoreRarity (some ⟨upperStr s, 0, 0, 0⟩) DEFAULT_SCORING_CONFIG = 100 ∧
    scoreRarity none DEFAULT_SCORING_CONFIG = 50 := by
  refine ⟨?_, ?_, rfl⟩
  · rw [getPattern, buildPatterns, alookup_mapVal, alookup_groupFold, habsent]
    simp
  · rw [scoreRarity]
    norm_num [DEFAULT_SCORING_CONFIG]

/-- Witness for C10 at the empty batch and the symbol "XYZ". -/
theorem c10_witness :
    (([] : List FMPTrade).filter
      (fun t => decide (patternKey t = some (upperStr "XYZ"))) = []) ∧
    (getPattern (buildPatterns (fun _ => false) []) "XYZ" = ⟨upperStr "XYZ", 0, 0, 0⟩ ∧
     scoreRarity (some ⟨upperStr "XYZ", 0, 0, 0⟩) DEFAULT_SCORING_CONFIG = 100 ∧
     scoreRarity none DEFAULT_SCORING_CONFIG = 50) :=
  ⟨rfl, c10_zero_pattern_scores_100 [] (fun _ => false) "XYZ" rfl⟩

/-- C5 counterexample: with the default thresholds the caps 0 < 1 score 0 and
100 — the score is not non-increasing at cap 0, because the scorer's JS falsy
guard `!marketData?.marketCap` treats a cap of exactly 0 as missing data. -/
theorem c5_counterexample :
    (0 : ℚ) < 1 ∧
    ¬ (scoreMarketCap (some (mdWithCap 1)) DEFAULT_SCORING_CONFIG ≤
       scoreMarketCap (some (mdWithCap 0)) DEFAULT_SCORING_CONFIG) := by
  constructor
  · norm_num
  · rw [scoreMarketCap, scoreMarketCap]
    norm_num [mdWithCap, DEFAULT_SCORING_CONFIG]

/-- C5 amended: for every thresholds config and market caps `a < b` with
`a ≠ 0`, the market-cap score is non-increasing: score(b) ≤ score(a).  (A cap
of exactly 0 is excluded: the falsy no-data guard maps it to score 0.) -/
theorem c5_marketcap_monotone (config : ScoringConfig) (a b : ℚ)
    (hab : a < b) (ha : a ≠ 0) :
    scoreMarketCap (some (mdWithCap b)) config ≤
      scoreMarketCap (some (mdWithCap a)) config := by
  rw [scoreMarketCap, scoreMarketCap]
  show (if b = 0 then (0 : ℚ) else _) ≤ (if a = 0 then (0 : ℚ) else _)
  split_ifs <;> linarith

/-- Witness for C5 at caps 1 < 2 under the default config. -/
theorem c5_witness :
    (1 : ℚ) < 2 ∧ (1 : ℚ) ≠ 0 ∧
    scoreMarketCap (some (mdWithCap 2)) DEFAULT_SCORING_CONFIG ≤
      scoreMarketCap (some (mdWithCap 1)) DEFAULT_SCORING_CONFIG :=
  ⟨by norm_num, by norm_num,
    c5_marketcap_monotone DEFAULT_SCORING_CONFIG 1 2 (by norm_num) (by norm_num)⟩

/-- An owner text containing both "spouse" and "child". -/
def ownershipOverlapTrade : TradeInput := mkOwnerTrade (some "Spouse Child")

/-- C8 counterexample: on the owner text "Spouse Child" the source returns 75
(it tests "spouse" first), while the claim's check order ("child"/"dependent"
before "spouse") yields 100 — so the order the claim states is not the
source's. -/
theorem c8_counterexample :
    scoreOwnership ownershipOverlapTrade ≠ claimOrderOwnership ownershipOverlapTrade := by
  have h1 : scoreOwnership ownershipOverlapTrade = 75 := rfl
  have h2 : claimOrderOwnership ownershipOverlapTrade = 100 := rfl
  rw [h1, h2]
  norm_num

/-- C8 amended: `scoreOwnership` inspects the owner text case-insensitively
with "spouse" checked first: containing "spouse" → 75, else "child" or
"dependent" → 100, else "joint" → 25, else 0 (including a missing owner);
in particular "SPOUSE" and "spouse" both score 75. -/
theorem c8_ownership_amended :
    (∀ (t : TradeInput) (s : String), t.owner = some s → s ≠ "" →
      scoreOwnership t =
        (if containsSub (lowerStr s) "spouse" = true then (75 : ℚ)
         else if (containsSub (lowerStr s) "child" ||
             containsSub (lowerStr s) "dependent") = true then 100
         else if containsSub (lowerStr s) "joint" = true then 25
         else 0)) ∧
    (∀ t : TradeInput, t.owner = none → scoreOwnership t = 0) ∧
    scoreOwnership (mkOwnerTrade (some "SPOUSE")) = 75 ∧
    scoreOwnership (mkOwnerTrade (some "spouse")) = 75 := by
  refine ⟨?_, ?_, rfl, rfl⟩
  · intro t s hs hne
    rw [scoreOwnership, hs]
    simp [hne]
  · intro t ht
    rw [scoreOwnership, ht]

/-- Witness for C8 at the owner text "Joint". -/
theorem c8_witness :
    (mkOwnerTrade (some "Joint")).owner = some "Joint" ∧ "Joint" ≠ "" ∧
    scoreOwnership (mkOwnerTrade (some "Joint")) =
      (if containsSub (lowerStr "Joint") "spouse" = true then (75 : ℚ)
       else if (containsSub (lowerStr "Joint") "child" ||
           containsSub (lowerStr "Joint") "dependent") = true then 100
       else if containsSub (lowerStr "Joint") "joint" = true then 25
       else 0) :=
  ⟨rfl, by decide,
    c8_ownership_amended.1 (mkOwnerTrade (some "Joint")) "Joint" rfl (by decide)⟩

/-- C6: amount parsing.  A missing amount yields null; otherwise the source
strips `$` and `,`, extracts all embedded digit runs in order, and returns
null for none, `{n, n}` for one, and `{first, second}` for two or more; in
particular "$15,001 - $50,000" parses to `{low := 15001, high := 50000}`,
whose midpoint is 32500.5. -/
theorem c6_parse_amount_range :
    parseAmountRange none = none ∧
    (∀ s : String,
      parseAmountRange (some s) =
        match digitRuns (stripDollarComma s) with
        | [] => none
        | [n] => some ⟨(parseIntNat n : ℚ), (parseIntNat n : ℚ)⟩
        | n1 :: n2 :: _ => some ⟨(parseIntNat n1 : ℚ), (parseIntNat n2 : ℚ)⟩) ∧
    parseAmountRange (some "$15,001 - $50,000") = some ⟨15001, 50000⟩ ∧
    ((15001 : ℚ) + 50000) / 2 = 32500.5 := by
  refine ⟨rfl, ?_, ?_, by norm_num⟩
  · intro s
    by_cases h : s = ""
    · subst h; rfl
    · rw [parseAmountRange]
      simp [h]
  · have h1 : parseAmountRange (some "$15,001 - $50,000") =
        some ⟨((15001 : ℕ) : ℚ), ((50000 : ℕ) : ℚ)⟩ := rfl
    rw [h1]
    norm_num

/-- A trade whose only present field is the symbol "AAPL". -/
def aaplTrade : TradeInput := ⟨some "AAPL", none, none, none, none, none, none⟩

/-- A trader sitting on the single committee "SSAF". -/
def ssafTrader : TraderInput := ⟨"senate-a-b", "A", "B", Chamber.senate, ["SSAF"], none⟩

/-- A trader history with no visible trades. -/
def emptyHistory : TraderHistory := ⟨[], none, 0⟩

/-- C2: `scoreTrade` is **not** total on the documented inputs.  For any
taxonomy table, the capability object `CommitteeSectorMapImpl` (which exposes
exactly the three methods the `CommitteeSectorMap` interface declares) makes
`scoreTrade` throw: `scoreCommitteeRelevance` calls
`sectorMap.getStockSectors`, a method the interface does not declare and the
implementation does not define, so with a present sector map, a truthy
symbol and a non-empty committee list the call is a `TypeError` instead of a
`UniquenessResult`. -/
theorem c2_score_trade_throws (table : List CommitteeSectorTaxonomy) :
    scoreTradeSrc aaplTrade ssafTrader emptyHistory none none
      (some (sectorMapImpl table)) DEFAULT_SCORING_CONFIG =
      Except.error "TypeError: sectorMap.getStockSectors is not a function" := rfl

/-- C3: whenever `scoreTrade` does return a result, its overall score is
`Math.round` of the weighted sum of its own six factor sub-scores, with the
weights taken from the supplied config. -/
theorem c3_overall_weighted_sum (trade : TradeInput) (trader : TraderInput)
    (traderHistory : TraderHistory) (marketData : Option MarketData)
    (tradingPattern : Option CongressionalTradingPattern)
    (sectorMap : Option CommitteeSectorMap) (config : ScoringConfig)
    (r : UniquenessResult)
    (h : scoreTradeSrc trade trader traderHistory marketData tradingPattern
      sectorMap config = Except.ok r) :
    r.overallScore = jsRound
      (r.factors.marketCapScore * config.weights.marketCap +
       r.factors.convictionScore * config.weights.conviction +
       r.factors.rarityScore * config.weights.rarity +
       r.factors.committeeRelevanceScore * config.weights.committeeRelevance +
       r.factors.derivativeScore * config.weights.derivative +
       r.factors.ownershipScore * config.weights.ownership) := by
  rw [scoreTradeSrc] at h
  cases hc : scoreCommitteeRelevanceSrc trade trader sectorMap with
  | error e =>
    rw [hc] at h
    simp [Bind.bind, Except.bind] at h
  | ok crel =>
    rw [hc] at h
    cases he : buildExplanationSrc trade trader traderHistory marketData
        tradingPattern sectorMap config with
    | error e =>
      rw [he] at h
      simp [Bind.bind, Except.bind] at h
    | ok expl =>
      rw [he] at h
      simp only [Bind.bind, Except.bind, Except.ok.injEq] at h
      subst h
      rfl

/-- The factor scores of the C3 witness run: no optional context at all. -/
def c3factors : FactorScores := ⟨0, 0, 50, 0, 0, 0⟩

/-- The full result of the C3 witness run: only the neutral rarity 50
contributes, so the overall score is `round(50 × 0.25) = round(12.5) = 13`. -/
def c3result : UniquenessResult :=
  ⟨13, c3factors, ⟨none, none, none, none, none, none⟩,
    ⟨false, false, true, false, false, false⟩⟩

/-- Witness for C3: a concrete successful scoring run under the default
config. -/
theorem c3_witness :
    scoreTradeSrc blankTradeInput ssafTrader emptyHistory none none none
      DEFAULT_SCORING_CONFIG = Except.ok c3result ∧
    c3result.overallScore = jsRound
      (c3result.factors.marketCapScore * DEFAULT_SCORING_CONFIG.weights.marketCap +
       c3result.factors.convictionScore * DEFAULT_SCORING_CONFIG.weights.conviction +
       c3result.factors.rarityScore * DEFAULT_SCORING_CONFIG.weights.rarity +
       c3result.factors.committeeRelevanceScore *
         DEFAULT_SCORING_CONFIG.weights.committeeRelevance +
       c3result.factors.derivativeScore * DEFAULT_SCORING_CONFIG.weights.derivative +
       c3result.factors.ownershipScore * DEFAULT_SCORING_CONFIG.weights.ownership) := by
  have h1 : scoreTradeSrc blankTradeInput ssafTrader emptyHistory none none none
      DEFAULT_SCORING_CONFIG = Except.ok
        { overallScore := calculateOverallScore c3factors DEFAULT_SCORING_CONFIG
          factors := c3factors
          explanation := ⟨none, none, none, none, none, none⟩
          flags := ⟨false, false, true, false, false, false⟩ } := rfl
  have h2 : calculateOverallScore c3factors DEFAULT_SCORING_CONFIG = 13 := by
    rw [calculateOverallScore, jsRound]
    norm_num [c3factors, DEFAULT_SCORING_CONFIG]
  have hok : scoreTradeSrc blankTradeInput ssafTrader emptyHistory none none none
      DEFAULT_SCORING_CONFIG = Except.ok c3result := by
    rw [h1, h2]; rfl
  exact ⟨hok,
    c3_overall_weighted_sum blankTradeInput ssafTrader emptyHistory none none none
      DEFAULT_SCORING_CONFIG c3result hok⟩

/-- C1: committee-relevance union semantics over sector and industry tags.
First conjunct (on the spec-modelled industry-aware scorer): a trader on two
committees, one whose jurisdiction contains the stock's sector and one whose
jurisdiction contains the stock's industry, scores 100 — two distinct
overlapping tags in the union across the committees.  Second conjunct (on
the source's `hasCommitteeOverlap`): overlap holds iff the sector is in the
committee's sector set OR the industry is in its industry set. -/
theorem c1_committee_union_semantics :
    (∀ (m : CommitteeSectorMap) (sym cA cB sec ind : String),
      sym ≠ "" → sec ≠ ind →
      sec ∈ m.getCommitteeSectors cA → ind ∈ m.getCommitteeIndustries cB →
      scoreCommitteeRelevanceSI (some sym) [cA, cB] (some sec) (some ind) m = 100) ∧
    (∀ (table : List CommitteeSectorTaxonomy) (cid sec ind : String),
      sec ≠ "" → ind ≠ "" →
      (hasCommitteeOverlap table cid (some sec) (some ind) = true ↔
        sec ∈ getCommitteeSectors table cid ∨ ind ∈ getCommitteeIndustries table cid)) := by
  constructor
  · intro m sym cA cB sec ind hsym hne hsec hind
    rw [scoreCommitteeRelevanceSI]
    have hcond : ¬ (strTruthy (some sym) = false ∨ [cA, cB] = ([] : List String)) := by
      simp [strTruthy, hsym]
    rw [if_neg hcond]
    have htags : ((some sec).toList ++ (some ind).toList).dedup = [sec, ind] := by
      simp [List.dedup_cons_of_not_mem, hne]
    simp only [htags]
    have hd1 : sec ∈ m.getCommitteeSectors cA ∨ sec ∈ m.getCommitteeIndustries cA ∨
        sec ∈ m.getCommitteeSectors cB ∨ sec ∈ m.getCommitteeIndustries cB := Or.inl hsec
    have hd2 : ind ∈ m.getCommitteeSectors cA ∨ ind ∈ m.getCommitteeIndustries cA ∨
        ind ∈ m.getCommitteeSectors cB ∨ ind ∈ m.getCommitteeIndustries cB :=
      Or.inr (Or.inr (Or.inr hind))
    simp [List.filter_cons, hd1, hd2]
  · intro table cid sec ind hsec hind
    cases h : committeeMapGet table cid with
    | none =>
      simp [hasCommitteeOverlap, getCommitteeSectors, getCommitteeIndustries, h]
    | some taxo =>
      simp [hasCommitteeOverlap, getCommitteeSectors, getCommitteeIndustries, h, hsec, hind]

/-- The two-committee taxonomy of the C1 witness. -/
def c1table : List CommitteeSectorTaxonomy :=
  [⟨"A", "Alpha", ["Tech"], []⟩, ⟨"B", "Beta", [], ["Software"]⟩]

/-- The C1 witness capability object: the implementation over `c1table`. -/
def c1map : CommitteeSectorMap := sectorMapImpl c1table

/-- Witness for C1: a concrete trader on committees "A" and "B", with the
stock's sector covered by "A" and its industry by "B". -/
theorem c1_witness :
    ("AAPL" : String) ≠ "" ∧ ("Tech" : String) ≠ "Software" ∧
    "Tech" ∈ c1map.getCommitteeSectors "A" ∧
    "Software" ∈ c1map.getCommitteeIndustries "B" ∧
    scoreCommitteeRelevanceSI (some "AAPL") ["A", "B"] (some "Tech")
      (some "Software") c1map = 100 ∧
    ("Tech" : String) ≠ "" ∧ ("Software" : String) ≠ "" ∧
    (hasCommitteeOverlap c1table "A" (some "Tech") (some "Software") = true ↔
      "Tech" ∈ getCommitteeSectors c1table "A" ∨
        "Software" ∈ getCommitteeIndustries c1table "A") :=
  ⟨by decide, by decide, by decide, by decide,
    c1_committee_union_semantics.1 c1map "AAPL" "A" "B" "Tech" "Software"
      (by decide) (by decide) (by decide) (by decide),
    by decide, by decide,
    c1_committee_union_semantics.2 c1table "A" "Tech" "Software" (by decide) (by decide)⟩

/- ============================================================
   C7 and C9: aggregation characterizations
   ============================================================ -/

lemma reduceOption_map_eq_filterMap {α β : Type} (l : List α) (f : α → Option β) :
    (l.map f).reduceOption = l.filterMap f := by
  simp [List.reduceOption, List.filterMap_map]

lemma alookup_mapVal2 {α β : Type} (f : α → β) (m : List (String × α)) (k : String) :
    alookup k (m.map (fun p => (p.1, f p.2))) = (alookup k m).map f := by
  induction m with
  | nil => simp [alookup]
  | cons p rest ih =>
    obtain ⟨k0, v⟩ := p
    by_cases h : k0 = k
    · subst h; simp [alookup]
    · simp [alookup, h, ih]

/-- The trades of one trader inside a batch, in order. -/
def traderGroup (trades : List (FMPTrade × Chamber)) (tid : String) :
    List (FMPTrade × Chamber) :=
  trades.filter (fun p => decide (getTraderId p.1 p.2 = tid))

/-- The midpoints of the parseable amounts of a group of trades, in order:
trades whose amount does not parse contribute nothing. -/
def groupMidpoints (g : List (FMPTrade × Chamber)) : List ℚ :=
  g.filterMap (fun p => (parseAmountRange p.1.amount).map (fun a => (a.low + a.high) / 2))

/-- C7: for every trader id with an entry in `buildTraderHistories`, the
total trade count is the count of all of that trader's trades, and the
average trade size is the mean of the midpoints over only the parseable
amounts — `none`, not 0, when no amount parses. -/
theorem c7_trader_histories (trades : List (FMPTrade × Chamber)) (tid : String)
    (h : TraderHistory)
    (hl : alookup tid (buildTraderHistories trades) = some h) :
    h.totalTradeCount = (traderGroup trades tid).length ∧
    h.averageTradeSize =
      (if (groupMidpoints (traderGroup trades tid)).isEmpty then none
       else some ((groupMidpoints (traderGroup trades tid)).sum /
         ((groupMidpoints (traderGroup trades tid)).length : ℚ))) := by
  rw [buildTraderHistories, alookup_mapVal2, alookup_groupFold] at hl
  have hfil : trades.filter
      (fun p => decide ((some (getTraderId p.1 p.2) : Option String) = some tid)) =
      traderGroup trades tid := by
    rw [traderGroup]
    apply List.filter_congr
    intro p _
    simp
  rw [hfil] at hl
  by_cases hemp : (traderGroup trades tid).isEmpty
  · rw [if_pos hemp] at hl
    simp at hl
  · rw [if_neg hemp] at hl
    simp only [Option.map_some', Option.some.injEq] at hl
    subst hl
    have hmid : ((traderGroup trades tid).map (fun p => toTradeInput p.1)).map
        (fun t => t.amount.map (fun a => (a.low + a.high) / 2)) =
        (traderGroup trades tid).map
          (fun p => (parseAmountRange p.1.amount).map (fun a => (a.low + a.high) / 2)) := by
      rw [List.map_map]
      apply List.map_congr_left
      intro p _
      rfl
    constructor
    · simp [mkHistory]
    · simp only [mkHistory, hmid, reduceOption_map_eq_filterMap]
      rfl

/-- An `FMPTrade` with only names, amount and symbol possibly present. -/
def mkNameTrade (fn ln amt sym : Option String) : FMPTrade :=
  ⟨fn, ln, none, none, none, none, none, none, none, none, amt, none, sym⟩

/-- The trades of the C7 witness: two trades of one senate trader, one with
no amount and one with an unparseable amount. -/
def c7batch : List (FMPTrade × Chamber) :=
  [(mkNameTrade (some "A") (some "B") none none, Chamber.senate),
   (mkNameTrade (some "A") (some "B") (some "n/a") none, Chamber.senate)]

/-- The history of the C7 witness trader: two trades counted, no average. -/
def c7hist : TraderHistory := ⟨[blankTradeInput, blankTradeInput], none, 2⟩

/-- Witness for C7 at a concrete two-trade batch without parseable amounts. -/
theorem c7_witness :
    alookup "senate-a-b" (buildTraderHistories c7batch) = some c7hist ∧
    (c7hist.totalTradeCount = (traderGroup c7batch "senate-a-b").length ∧
     c7hist.averageTradeSize =
       (if (groupMidpoints (traderGroup c7batch "senate-a-b")).isEmpty then none
        else some ((groupMidpoints (traderGroup c7batch "senate-a-b")).sum /
          ((groupMidpoints (traderGroup c7batch "senate-a-b")).length : ℚ)))) :=
  ⟨rfl, c7_trader_histories c7batch "senate-a-b" c7hist rfl⟩

/-- C9 amended: for every entry of `buildPatterns`, `uniqueTraders` is the
number of distinct values of `` `${firstName}-${lastName}`.toLowerCase() ``
among the group's trades — the lower-cased hyphen-joined name string, which
coincides with the number of distinct case-insensitive name pairs exactly
when the joined strings are unambiguous. -/
theorem c9_unique_traders (trades : List FMPTrade) (isRecent : String → Bool)
    (k : String) (p : CongressionalTradingPattern)
    (hl : alookup k (buildPatterns isRecent trades) = some p) :
    p.uniqueTraders =
      ((trades.filter (fun t => decide (patternKey t = some k))).map
        patternTraderId).toFinset.card := by
  rw [buildPatterns, alookup_mapVal, alookup_groupFold] at hl
  by_cases hemp : (trades.filter (fun t => decide (patternKey t = some k))).isEmpty
  · rw [if_pos hemp] at hl
    simp at hl
  · rw [if_neg hemp] at hl
    simp only [Option.map_some', Option.some.injEq] at hl
    subst hl
    rw [mkPattern]
    exact distinctCount_eq_card _

/-- The two hyphen-ambiguous trades of the C9 counterexample. -/
def hyphenBatch : List FMPTrade :=
  [mkNameTrade (some "Jean-Luc") (some "Picard") none (some "AAPL"),
   mkNameTrade (some "Jean") (some "Luc-Picard") none (some "AAPL")]

/-- C9 counterexample: the traders ("Jean-Luc", "Picard") and
("Jean", "Luc-Picard") are distinct name pairs (2 of them, case-insensitively),
but both join to the id "jean-luc-picard", so the pattern records
`uniqueTraders = 1`, not the pair count 2 the claim states. -/
theorem c9_counterexample :
    (getPattern (buildPatterns (fun _ => false) hyphenBatch) "AAPL").uniqueTraders = 1 ∧
    ((hyphenBatch.filter (fun t => decide (patternKey t = some "AAPL"))).map
      pairKey).toFinset.card = 2 ∧
    (1 : ℕ) ≠ 2 :=
  ⟨rfl, by decide, by decide⟩

/-- Witness for C9 on the concrete two-trade batch. -/
theorem c9_witness :
    alookup "AAPL" (buildPatterns (fun _ => false) hyphenBatch) =
      some ⟨"AAPL", 2, 1, 0⟩ ∧
    (⟨"AAPL", 2, 1, 0⟩ : CongressionalTradingPattern).uniqueTraders =
      ((hyphenBatch.filter (fun t => decide (patternKey t = some "AAPL"))).map
        patternTraderId).toFinset.card :=
  ⟨rfl, c9_unique_traders hyphenBatch (fun _ => false) "AAPL" ⟨"AAPL", 2, 1, 0⟩ rfl⟩

end CongressTrades
